import Mathlib

/-
  Verification development for the youtube-watchmarker extension.

  Shallow embedding of the watch-record reconciliation engine:
  title validation (validation utils), the ensure/mark merge policies
  (bg-youtube.js), the browser-history cross-reference merge
  (bg-history.js), the pagination loop of Youtube.synchronize,
  the structured page parser (extractVideosFromContents), the chunked
  bulk importer (chunk-utils), and the store loop of the scrape sync.

  JavaScript value conventions used throughout: optional string fields
  are modelled as String with the empty string playing the role of the
  falsy values undefined/null/"" (they behave identically at every use
  site embedded here), and optional numeric fields are modelled as Nat
  with 0 playing the role of the falsy values undefined/null/0.
-/

namespace YTWM

/-- JavaScript a || b on strings: a if truthy (non-empty), else b. -/
def jsOrString (a b : String) : String := if a = "" then b else a

/-- JavaScript a || b on numbers restricted to Nat: a if truthy (non-zero), else b. -/
def jsOrNat (a b : Nat) : Nat := if a = 0 then b else a

/-- JavaScript truthiness of a string value. -/
def truthyS (s : String) : Bool := s != ""

/-- Strip leading and trailing whitespace from a character list. -/
def trimList (cs : List Char) : List Char :=
  ((cs.dropWhile Char.isWhitespace).reverse.dropWhile Char.isWhitespace).reverse

/-- The JavaScript String.prototype.trim: whitespace stripped from both ends. -/
def jsTrim (s : String) : String := String.mk (trimList s.toList)

/-- The fixed denylist of generic titles from isValidVideoTitle (validation utils). -/
def invalidTitles : List String :=
  ["YouTube", "Youtube", "YOUTUBE", "Video", "Untitled", "Loading...",
   "Loading", "...", "Private video", "Deleted video", "[Deleted video]",
   "[Private video]", "Video unavailable"]

/-- Non-empty string of decimal digits, the JavaScript regex fragment for one or more digits. -/
def isDigits (cs : List Char) : Bool := !cs.isEmpty && cs.all Char.isDigit

/-- Generic pattern: the word Video, a space and digits, case-insensitively. -/
def patVideoNum (t : String) : Bool :=
  let l := t.toList.map Char.toLower
  l.take 6 == "video ".toList && isDigits (l.drop 6)

/-- Generic pattern: Untitled optionally followed by a space and digits, case-insensitively. -/
def patUntitled (t : String) : Bool :=
  let l := t.toList.map Char.toLower
  l == "untitled".toList || (l.take 9 == "untitled ".toList && isDigits (l.drop 9))

/-- Generic pattern: Loading followed by three or more dots, case-insensitively. -/
def patLoadingDots (t : String) : Bool :=
  let l := t.toList.map Char.toLower
  l.take 7 == "loading".toList && (l.drop 7).length ≥ 3 && (l.drop 7).all (· == '.')

/-- Generic pattern: whole string bracketed. The JavaScript dot does not match
line terminators, so the interior must be free of them. -/
def patBracketed (t : String) : Bool :=
  match t.toList with
  | '[' :: rest =>
    !rest.isEmpty && rest.getLast? == some ']' &&
      rest.dropLast.all (fun c =>
        c != '\n' && c != '\r' && c.val != 0x2028 && c.val != 0x2029)
  | _ => false

/-- Generic pattern: three or more dots only. -/
def patDots (t : String) : Bool :=
  t.toList.length ≥ 3 && t.toList.all (· == '.')

/-- Generic pattern: dashes only. -/
def patDashes (t : String) : Bool :=
  !t.toList.isEmpty && t.toList.all (· == '-')

/-- Generic pattern: underscores only. -/
def patUnderscores (t : String) : Bool :=
  !t.toList.isEmpty && t.toList.all (· == '_')

/-- isValidVideoTitle from the validation utilities: false for falsy input,
trimmed length below 2, denylisted titles, and the generic structural
patterns; true otherwise. -/
def isValidVideoTitle (title : String) : Bool :=
  if title == "" then false
  else
    let t := jsTrim title
    if t.length < 2 then false
    else if invalidTitles.contains t then false
    else if patVideoNum t || patUntitled t || patLoadingDots t || patBracketed t ||
            patDots t || patDashes t || patUnderscores t then false
    else true

/-- The canonical VideoRecord stored per id. -/
structure Video where
  strIdent : String
  intTimestamp : Nat
  strTitle : String
  intCount : Nat
deriving DecidableEq, Repr

/-- Request object for the ensure and mark operations. An absent strTitle is
the empty string and absent intTimestamp and intCount are 0, matching the
JavaScript falsiness of the omitted fields at every use site. -/
structure VideoRequest where
  strIdent : String
  strTitle : String := ""
  intTimestamp : Nat := 0
  intCount : Nat := 0
deriving DecidableEq, Repr

/-- Modelled from the spec: the numeric value of TIMEOUTS.VIEW_COUNT_COOLDOWN
lives in constants.js which is not among the sources. The spec describes a
fixed threshold on the order of tens of seconds and the video tracker
divides it by 15 to obtain 2 seconds, giving 30000 milliseconds. -/
def VIEW_COUNT_COOLDOWN : Nat := 30000

/-- Title preference rule shared verbatim by the update branches of
Youtube.ensure (bg-youtube.js lines 661 to 667) and Youtube.mark
(lines 742 to 748): a valid requested title wins; otherwise a truthy
requested title replaces an invalid stored title; otherwise the stored
title is kept. -/
def preferredTitle (ex : Video) (req : VideoRequest) : String :=
  let titleToUse := jsOrString ex.strTitle ""
  if truthyS req.strTitle && isValidVideoTitle req.strTitle then req.strTitle
  else if !isValidVideoTitle titleToUse && truthyS req.strTitle then req.strTitle
  else titleToUse

/-- The record built by the create branches of ensure (lines 684 to 692) and
mark (lines 758 to 765): title gated by validity, timestamp and count
defaulting to now and 1. -/
def newVideoFrom (req : VideoRequest) (now : Nat) : Video :=
  { strIdent := req.strIdent
    intTimestamp := jsOrNat req.intTimestamp now
    strTitle := if truthyS req.strTitle && isValidVideoTitle req.strTitle
                then req.strTitle else ""
    intCount := jsOrNat req.intCount 1 }

/-- The videoToReturn object of the ensure update branch (lines 671 to 676):
existing timestamp, preferred title, existing count defaulted to 1. -/
def ensureVideoToReturn (ex : Video) (req : VideoRequest) : Video :=
  { strIdent := ex.strIdent
    intTimestamp := ex.intTimestamp
    strTitle := preferredTitle ex req
    intCount := jsOrNat ex.intCount 1 }

/-- Whether the ensure update branch issues putVideo (line 679): exactly when
the resolved title differs from the stored title. -/
def ensurePutIssued (ex : Video) (req : VideoRequest) : Bool :=
  preferredTitle ex req != ex.strTitle

/-- The record stored for the requested id after Youtube.ensure runs against
a prior optional record: the update branch writes videoToReturn only when
the title changed, the create branch always writes the new record. -/
def ensureStored : Option Video → VideoRequest → Nat → Video
  | some ex, req, _ =>
    if ensurePutIssued ex req then ensureVideoToReturn ex req else ex
  | none, req, now => newVideoFrom req now

/-- The record stored by Youtube.mark (lines 729 to 769): for an existing
record the timestamp is replaced by the request timestamp or now, the
title follows the preference rule, and the count is incremented exactly
when now minus the stored timestamp reaches the cooldown; otherwise a
fresh record is created. mark always issues putVideo. -/
def markVideo : Option Video → VideoRequest → Nat → Video
  | some ex, req, now =>
    let existingTimestamp := jsOrNat ex.intTimestamp 0
    let shouldIncrementCount : Bool :=
      decide ((VIEW_COUNT_COOLDOWN : Int) ≤ (now : Int) - (existingTimestamp : Int))
    { strIdent := ex.strIdent
      intTimestamp := jsOrNat req.intTimestamp now
      strTitle := preferredTitle ex req
      intCount := if shouldIncrementCount then jsOrNat (ex.intCount + 1) 1
                  else jsOrNat ex.intCount 1 }
  | none, req, now => newVideoFrom req now

/-- One browser-history observation after URL, title and id filtering in
HistoryManager.synchronize: the last visit time, the visit count and the
title already passed through cleanTitle. -/
structure HistoryEntry where
  lastVisitTime : Nat
  visitCount : Nat
  cleanTitle : String
deriving DecidableEq, Repr

/-- The merged record of HistoryManager.synchronize for an existing record
(bg-history.js lines 180 to 185): max of timestamps, existing title when
truthy else the cleaned new title, max of counts defaulted to 1. -/
def historyMergedVideo (id : String) (ex : Video) (e : HistoryEntry) : Video :=
  { strIdent := id
    intTimestamp := max (jsOrNat ex.intTimestamp 0) (jsOrNat e.lastVisitTime 0)
    strTitle := jsOrString ex.strTitle e.cleanTitle
    intCount := max (jsOrNat ex.intCount 1) (jsOrNat e.visitCount 1) }

/-- The record created by HistoryManager.synchronize when no record exists
(lines 188 to 193). -/
def historyNewVideo (id : String) (e : HistoryEntry) : Video :=
  { strIdent := id
    intTimestamp := e.lastVisitTime
    strTitle := e.cleanTitle
    intCount := jsOrNat e.visitCount 1 }

/-- The per-entry state transition of HistoryManager.synchronize for one id:
with skipExisting an existing record is left untouched, otherwise it is
merged; an absent record is created. -/
def historyStep (skipExisting : Bool) (id : String) (e : HistoryEntry) :
    Option Video → Video
  | some ex => if skipExisting then ex else historyMergedVideo id ex e
  | none => historyNewVideo id e

/-- The spec rule for the history-merge title, written from the words of the
spec for comparison with the source rule: the existing title is kept
exactly when it is meaningful, otherwise the new normalized title is used. -/
def specHistoryMergeTitle (existingTitle newTitle : String) : String :=
  if isValidVideoTitle existingTitle then existingTitle else newTitle

/-- One step applied to the record of a fixed id: a mark call or one
history-synchronize entry targeting that id. -/
inductive IdStep where
  | mark (req : VideoRequest) (now : Nat)
  | hist (skipExisting : Bool) (e : HistoryEntry)
deriving Repr

/-- Apply one step to the optional stored record of the fixed id. Both
operations leave a record present. -/
def applyIdStep (id : String) : IdStep → Option Video → Video
  | .mark req now, s => markVideo s req now
  | .hist sk e, s => historyStep sk id e s

/-- Apply a sequence of mark and history-merge steps to the stored record. -/
def applyIdSteps (id : String) (steps : List IdStep) (s : Option Video) :
    Option Video :=
  steps.foldl (fun st stp => some (applyIdStep id stp st)) s

/-- The page cap of the pagination loop in Youtube.synchronize (maxPages,
bg-youtube.js line 47). -/
def maxPages : Nat := 10

/-- Outcome of one continuation fetch and parse in the pagination loop:
a failed fetch or a thrown error, a response without continuation
contents, or a page of parsed videos together with the next token. -/
inductive ContResult where
  | fail
  | noContents
  | page (videos : List Video) (token : Option String)
deriving DecidableEq, Repr

/-- The continuation loop of Youtube.synchronize (lines 273 to 336). The
function consumes the fetch outcomes in order and returns the accumulated
videos together with the number of continuation fetches performed. The
loop condition pageCount below maxPages is carried as the structurally
decreasing argument remaining, equal to maxPages minus pageCount, so the
guard becomes remaining positive and incrementing the page counter
becomes decrementing remaining. A missing token or an exhausted page
budget stops before fetching; a failed fetch or missing contents stops
after it; otherwise the page is appended and the token advanced. -/
def contLoop (pages : Nat → ContResult) :
    Nat → Nat → Option String → List Video → List Video × Nat
  | _, _, none, acc => (acc, 0)
  | 0, _, some _, acc => (acc, 0)
  | remaining + 1, i, some _, acc =>
    match pages i with
    | .fail => (acc, 1)
    | .noContents => (acc, 1)
    | .page vids tok =>
      let r := contLoop pages remaining (i + 1) tok (acc ++ vids)
      (r.1, r.2 + 1)

/-- State after fetching and parsing the initial history page: when the
structured ytInitialData parse succeeds the first page videos and token
are taken and the page counter becomes 1, otherwise nothing is extracted,
the token stays null and the counter stays 0 (lines 157 to 181). -/
def initState : Option (List Video × Option String) →
    List Video × Option String × Nat
  | none => ([], none, 0)
  | some (vs, tk) => (vs, tk, 1)

/-- Total number of network fetches performed by Youtube.synchronize for a
given initial-parse outcome and continuation outcomes: the initial fetch
plus the continuation fetches of the loop, entered with remaining equal
to maxPages minus the initial page counter. -/
def synchronizeFetches (dm : Option (List Video × Option String))
    (pages : Nat → ContResult) : Nat :=
  1 + (contLoop pages (maxPages - (initState dm).2.2) 0 (initState dm).2.1
        (initState dm).1).2

/-- The candidates accumulated by the pagination of Youtube.synchronize. -/
def synchronizeCandidates (dm : Option (List Video × Option String))
    (pages : Nat → ContResult) : List Video :=
  (contLoop pages (maxPages - (initState dm).2.2) 0 (initState dm).2.1
    (initState dm).1).1

/-- JavaScript truthiness of an optional string value: undefined and the
empty string are falsy. -/
def jsTruthyOpt : Option String → Bool
  | some s => s != ""
  | none => false

/-- JavaScript a || b on optional string values. -/
def jsOrOpt (a b : Option String) : Option String :=
  if jsTruthyOpt a then a else b

/-- Whether the anchored regex fragment of one or more whitespace, the word
by case-insensitively, one or more whitespace and then comma-free text
matches the given character suffix to its end (the by-author suffix
regex of extractVideoTitle, bg-youtube.js line 89). -/
def matchByTailAt (cs : List Char) : Bool :=
  let ws1 := cs.takeWhile Char.isWhitespace
  let rest1 := cs.dropWhile Char.isWhitespace
  !ws1.isEmpty &&
    (match rest1 with
     | b :: y :: rest2 =>
       b.toLower == 'b' && y.toLower == 'y' &&
         (let ws2 := rest2.takeWhile Char.isWhitespace
          let rest3 := rest2.dropWhile Char.isWhitespace
          !ws2.isEmpty && rest3.all (· != ','))
     | _ => false)

/-- Remove the leftmost by-author suffix match, keeping the text before it,
as the single JavaScript replace with the anchored regex does. -/
def stripByAuthor (s : String) : String :=
  match (List.range (s.length + 1)).find? (fun i => matchByTailAt (s.toList.drop i)) with
  | some i => String.mk (s.toList.take i)
  | none => s

/-- Whether the anchored regex fragment of optional whitespace, a dash,
optional whitespace, the word YouTube case-insensitively and trailing
whitespace matches the given character suffix to its end (the YouTube
suffix regex of extractVideoTitle, line 90). -/
def matchDashYoutubeTailAt (cs : List Char) : Bool :=
  let rest1 := cs.dropWhile Char.isWhitespace
  match rest1 with
  | c :: rest2 =>
    c == '-' &&
      (let rest3 := rest2.dropWhile Char.isWhitespace
       (rest3.take 7).map Char.toLower == "youtube".toList &&
         decide (rest3.length ≥ 7) && (rest3.drop 7).all Char.isWhitespace)
  | [] => false

/-- Remove the leftmost dash-YouTube suffix match, keeping the text before it. -/
def stripDashYoutube (s : String) : String :=
  match (List.range (s.length + 1)).find?
      (fun i => matchDashYoutubeTailAt (s.toList.drop i)) with
  | some i => String.mk (s.toList.take i)
  | none => s

/-- The title clean-up of extractVideoTitle (lines 88 to 91): trim, strip the
by-author suffix, trim, strip the dash-YouTube suffix, trim. -/
def cleanExtractedTitle (raw : String) : String :=
  jsTrim (stripDashYoutube (jsTrim (stripByAuthor (jsTrim raw))))

/-- The newer compact view-model item shape: the direct content identifier
and the two nested title fields, content preferred over text, read from
metadata dot lockupMetadataViewModel dot title (lines 107 to 111). -/
structure LockupViewModel where
  contentId : Option String
  titleContent : Option String := none
  titleText : Option String := none
deriving DecidableEq, Repr

/-- The older renderer item shape: the explicit video-id field together with
the values getNestedProperty finds at the eight fixed title paths of
extractVideoTitle, in path order (lines 73 to 96). -/
structure VideoRenderer where
  videoId : Option String
  titlePathValues : List (Option String) := []
deriving DecidableEq, Repr

/-- One entry of an item-section content list, carrying at most one of the
two candidate shapes. -/
structure ContentItem where
  lockupViewModel : Option LockupViewModel := none
  videoRenderer : Option VideoRenderer := none
deriving DecidableEq, Repr

/-- One section of the structured content list; itemContents is the list at
itemSectionRenderer dot contents when present. -/
structure ContentSection where
  itemContents : Option (List ContentItem)
deriving DecidableEq, Repr

/-- extractVideoTitle (lines 73 to 96): the first title-path value that is a
string with non-empty trim wins and is cleaned; otherwise null. A value
whose clean-up collapses to the empty string is still returned and ends
the search, as in the source. -/
def extractVideoTitle (r : VideoRenderer) : Option String :=
  r.titlePathValues.findSome? fun v =>
    match v with
    | some s => if jsTrim s != "" then some (cleanExtractedTitle s) else none
    | none => none

/-- The candidate produced from a view-model item when its guard holds: the
content id is truthy with exactly 11 characters and the resolved title is
truthy (lines 108 to 121). The title goes through the entity decoder,
passed in as the parameter decode, and the timestamp is the current time. -/
def lockupCandidate (now : Nat) (decode : String → String)
    (l : LockupViewModel) : Option Video :=
  match l.contentId, jsOrOpt l.titleContent l.titleText with
  | some cid, some t =>
    if cid ≠ "" ∧ cid.length = 11 ∧ t ≠ "" then
      some { strIdent := cid, intTimestamp := now, strTitle := decode t, intCount := 1 }
    else none
  | _, _ => none

/-- The candidate produced from a renderer item when its guard holds: the
video id is truthy with exactly 11 characters and extractVideoTitle
resolves to a truthy title (lines 125 to 137). -/
def rendererCandidate (now : Nat) (decode : String → String)
    (r : VideoRenderer) : Option Video :=
  match r.videoId with
  | some vid =>
    if vid ≠ "" then
      match extractVideoTitle r with
      | some t =>
        if vid.length = 11 ∧ t ≠ "" then
          some { strIdent := vid, intTimestamp := now, strTitle := decode t, intCount := 1 }
        else none
      | none => none
    else none
  | none => none

/-- The candidates produced from one item (lines 105 to 138): the view-model
shape is tried first and on success the renderer shape is skipped via
continue; when the view-model guard fails or the shape is absent the
renderer shape is tried. -/
def itemCandidates (now : Nat) (decode : String → String)
    (item : ContentItem) : List Video :=
  let rendererPart : List Video :=
    match item.videoRenderer with
    | some r => (rendererCandidate now decode r).toList
    | none => []
  match item.lockupViewModel with
  | some l =>
    match lockupCandidate now decode l with
    | some v => [v]
    | none => rendererPart
  | none => rendererPart

/-- extractVideosFromContents (lines 98 to 144): walk every section with an
item-section content list and collect the candidates of its items in
order. -/
def extractVideosFromContents (now : Nat) (decode : String → String)
    (contents : List ContentSection) : List Video :=
  (contents.map fun sec =>
    match sec.itemContents with
    | some items => (items.map (itemCandidates now decode)).flatten
    | none => []).flatten

/-- Modelled from the spec: the numeric value of
IMPORT_EXPORT.LARGE_DATASET_THRESHOLD lives in constants.js which is not
among the sources; the chunk-utils JSDoc documents the default 50000. -/
def LARGE_DATASET_THRESHOLD : Nat := 50000

/-- Modelled from the spec: default 10000 per the chunk-utils JSDoc, the
value itself living in constants.js which is not among the sources. -/
def MEDIUM_DATASET_THRESHOLD : Nat := 10000

/-- Modelled from the spec: default 500 per the chunk-utils JSDoc, the value
itself living in constants.js which is not among the sources. -/
def CHUNK_SIZE_LARGE : Nat := 500

/-- Modelled from the spec: default 750 per the chunk-utils JSDoc, the value
itself living in constants.js which is not among the sources. -/
def CHUNK_SIZE_MEDIUM : Nat := 750

/-- Modelled from the spec: default 1000 per the chunk-utils JSDoc, the value
itself living in constants.js which is not among the sources. -/
def CHUNK_SIZE_SMALL : Nat := 1000

/-- getOptimalChunkSize (chunk-utils) with default options: the smallest
chunk size above the large threshold, the middle size above the medium
threshold, the largest size otherwise. -/
def getOptimalChunkSize (dataLength : Nat) : Nat :=
  if LARGE_DATASET_THRESHOLD < dataLength then CHUNK_SIZE_LARGE
  else if MEDIUM_DATASET_THRESHOLD < dataLength then CHUNK_SIZE_MEDIUM
  else CHUNK_SIZE_SMALL

/-- JavaScript Math.round of the fraction itemsProcessed over totalItems
times 100, computed exactly: floor of the value plus one half. -/
def roundPct (itemsProcessed totalItems : Nat) : Nat :=
  (200 * itemsProcessed + totalItems) / (2 * totalItems)

/-- The totalChunks value of processInChunks: Math.ceil of totalItems over
chunkSize. -/
def chunkCount (totalItems chunkSize : Nat) : Nat :=
  (totalItems + chunkSize - 1) / chunkSize

/-- The percentage values reported by processInChunks in order. The loop
visits the start offsets 0, c, 2c and so on below totalItems, where c is
the optimal chunk size; at offset k times c the chunk length is the
remainder capped at c, so itemsProcessed is the minimum of (k plus 1)
times c and totalItems. -/
def chunkReports (totalItems : Nat) : List Nat :=
  let c := getOptimalChunkSize totalItems
  (List.range (chunkCount totalItems c)).map fun k =>
    roundPct (min ((k + 1) * c) totalItems) totalItems

/-- The single-key store abstraction used by the synchronize storage loops. -/
def Store := String → Option Video

/-- putVideo against the store abstraction: overwrite the key of the record. -/
def putVideo (s : Store) (v : Video) : Store :=
  fun id => if id = v.strIdent then some v else s id

/-- The storage loop shared verbatim by Youtube.synchronize (bg-youtube.js
lines 344 to 374) and Youtube.synchronizeLikedVideos (lines 543 to 573):
each candidate whose id already has a record is counted skipped and the
loop continues without a write, otherwise the candidate itself is stored
and counted processed. Returns the final store, the processed count and
the skipped count. -/
def storeLoop : List Video → Store → Store × Nat × Nat
  | [], s => (s, 0, 0)
  | v :: rest, s =>
    match s v.strIdent with
    | some _ =>
      let r := storeLoop rest s
      (r.1, r.2.1, r.2.2 + 1)
    | none =>
      let r := storeLoop rest (putVideo s v)
      (r.1, r.2.1 + 1, r.2.2)

/-- The result object returned by both scrape synchronizations (lines 377 to
383 and 576 to 582). -/
structure SyncResult where
  videoCount : Nat
  updatedCount : Nat
  newCount : Nat
  skippedCount : Nat
deriving DecidableEq, Repr

/-- The counts reported by the scrape synchronizations: processed as both
videoCount and newCount, updatedCount the literal zero, and the skipped
count from the loop. -/
def syncStoreResult (videos : List Video) (s : Store) : SyncResult :=
  let r := storeLoop videos s
  { videoCount := r.2.1, updatedCount := 0, newCount := r.2.1, skippedCount := r.2.2 }

/-! Helper lemmas about the JavaScript value helpers. -/

lemma jsOrString_empty (a : String) : jsOrString a "" = a := by
  unfold jsOrString; split <;> simp_all

lemma jsOrNat_zero (a : Nat) : jsOrNat a 0 = a := by
  unfold jsOrNat; split <;> simp_all

lemma le_jsOrNat_one (a : Nat) : a ≤ jsOrNat a 1 := by
  unfold jsOrNat; split <;> simp_all

lemma jsOrNat_one_of_pos {a : Nat} (h : 1 ≤ a) : jsOrNat a 1 = a := by
  unfold jsOrNat; split <;> omega

lemma one_le_jsOrNat_one (a : Nat) : 1 ≤ jsOrNat a 1 := by
  unfold jsOrNat; split <;> omega

lemma jsOrNat_succ_one (a : Nat) : jsOrNat (a + 1) 1 = a + 1 := by
  unfold jsOrNat; simp

lemma valid_title_ne_empty {s : String} (h : isValidVideoTitle s = true) :
    s ≠ "" := by
  intro he; subst he; simp [isValidVideoTitle] at h

/-- The preference rule keeps a valid stored title untouched when the
requested title is invalid or absent. -/
lemma preferredTitle_keep {ex : Video} {req : VideoRequest}
    (hex : isValidVideoTitle ex.strTitle = true)
    (hreq : isValidVideoTitle req.strTitle = false) :
    preferredTitle ex req = ex.strTitle := by
  have hne := valid_title_ne_empty hex
  simp [preferredTitle, jsOrString, hne, hreq, hex]

/-- C1: once a stored record carries a meaningful title, an ensure or a mark
call whose observed title is non-meaningful or absent leaves the stored
title unchanged. -/
theorem C1_title_monotonicity (ex : Video) (req : VideoRequest) (n0 n1 : Nat)
    (hex : isValidVideoTitle ex.strTitle = true)
    (hreq : isValidVideoTitle req.strTitle = false) :
    (ensureStored (some ex) req n0).strTitle = ex.strTitle ∧
    (markVideo (some ex) req n1).strTitle = ex.strTitle := by
  have hp := preferredTitle_keep hex hreq
  constructor
  · simp only [ensureStored]
    split
    · simp [ensureVideoToReturn, hp]
    · rfl
  · simp [markVideo, hp]

/-- Witness for C1 at a concrete record and request. -/
theorem C1_title_monotonicity_witness :
    isValidVideoTitle "Real Title" = true ∧
    isValidVideoTitle "Loading..." = false ∧
    (ensureStored (some ⟨"aaaaaaaaaaa", 5, "Real Title", 2⟩)
        ⟨"aaaaaaaaaaa", "Loading...", 0, 0⟩ 7).strTitle = "Real Title" ∧
    (markVideo (some ⟨"aaaaaaaaaaa", 5, "Real Title", 2⟩)
        ⟨"aaaaaaaaaaa", "Loading...", 0, 0⟩ 9).strTitle = "Real Title" :=
  ⟨by decide, by decide,
   (C1_title_monotonicity ⟨"aaaaaaaaaaa", 5, "Real Title", 2⟩
      ⟨"aaaaaaaaaaa", "Loading...", 0, 0⟩ 7 9 (by decide) (by decide)).1,
   (C1_title_monotonicity ⟨"aaaaaaaaaaa", 5, "Real Title", 2⟩
      ⟨"aaaaaaaaaaa", "Loading...", 0, 0⟩ 7 9 (by decide) (by decide)).2⟩

/-- C3: a mark call on an existing record increments viewCount by exactly one
when now minus the stored timestamp reaches the cooldown window and
leaves it unchanged otherwise; consequently a second mark without caller
timestamps issued within one cooldown window of the first changes the
count no further, so the two calls add at most one in total. -/
theorem C3_cooldown (ex : Video) (req1 req2 : VideoRequest) (t0 t1 : Nat)
    (hc : 1 ≤ ex.intCount)
    (h1 : req1.intTimestamp = 0) (h2 : req2.intTimestamp = 0)
    (hwin : (t1 : Int) - (t0 : Int) < (VIEW_COUNT_COOLDOWN : Int)) :
    (((VIEW_COUNT_COOLDOWN : Int) ≤ (t0 : Int) - (ex.intTimestamp : Int) →
        (markVideo (some ex) req1 t0).intCount = ex.intCount + 1) ∧
     (¬ ((VIEW_COUNT_COOLDOWN : Int) ≤ (t0 : Int) - (ex.intTimestamp : Int)) →
        (markVideo (some ex) req1 t0).intCount = ex.intCount)) ∧
    (markVideo (some (markVideo (some ex) req1 t0)) req2 t1).intCount
      = (markVideo (some ex) req1 t0).intCount ∧
    (markVideo (some ex) req1 t0).intCount ≤ ex.intCount + 1 := by
  have hts : (markVideo (some ex) req1 t0).intTimestamp = t0 := by
    simp [markVideo, h1, jsOrNat]
  have hcount1 : 1 ≤ (markVideo (some ex) req1 t0).intCount := by
    simp only [markVideo]
    split
    · have := one_le_jsOrNat_one (ex.intCount + 1); omega
    · have := one_le_jsOrNat_one ex.intCount; omega
  have hext : jsOrNat ex.intTimestamp 0 = ex.intTimestamp := jsOrNat_zero _
  refine ⟨⟨?_, ?_⟩, ?_, ?_⟩
  · intro hcd
    simp only [markVideo, hext]
    rw [if_pos (by simpa using hcd), jsOrNat_succ_one]
  · intro hcd
    simp only [markVideo, hext]
    rw [if_neg (by simpa using hcd), jsOrNat_one_of_pos hc]
  · have hmain : ∀ v : Video, v.intTimestamp = t0 → 1 ≤ v.intCount →
        (markVideo (some v) req2 t1).intCount = v.intCount := by
      intro v hv hvc
      simp only [markVideo, jsOrNat_zero, hv]
      rw [if_neg (by simpa using not_le.mpr hwin), jsOrNat_one_of_pos hvc]
    exact hmain _ hts hcount1
  · simp only [markVideo, hext]
    split
    · rw [jsOrNat_succ_one]
    · rw [jsOrNat_one_of_pos hc]; omega

/-- Witness for C3 at a concrete record and a pair of close mark calls. -/
theorem C3_cooldown_witness :
    ((((VIEW_COUNT_COOLDOWN : Int) ≤ ((40000 : Nat) : Int) - ((100 : Nat) : Int) →
        (markVideo (some ⟨"aaaaaaaaaaa", 100, "Some Song", 3⟩)
            ⟨"aaaaaaaaaaa", "", 0, 0⟩ 40000).intCount = 3 + 1) ∧
      (¬ ((VIEW_COUNT_COOLDOWN : Int) ≤ ((40000 : Nat) : Int) - ((100 : Nat) : Int)) →
        (markVideo (some ⟨"aaaaaaaaaaa", 100, "Some Song", 3⟩)
            ⟨"aaaaaaaaaaa", "", 0, 0⟩ 40000).intCount = 3)) ∧
     (markVideo (some (markVideo (some ⟨"aaaaaaaaaaa", 100, "Some Song", 3⟩)
          ⟨"aaaaaaaaaaa", "", 0, 0⟩ 40000)) ⟨"aaaaaaaaaaa", "", 0, 0⟩ 41000).intCount
        = (markVideo (some ⟨"aaaaaaaaaaa", 100, "Some Song", 3⟩)
            ⟨"aaaaaaaaaaa", "", 0, 0⟩ 40000).intCount ∧
     (markVideo (some ⟨"aaaaaaaaaaa", 100, "Some Song", 3⟩)
        ⟨"aaaaaaaaaaa", "", 0, 0⟩ 40000).intCount ≤ 3 + 1) :=
  C3_cooldown ⟨"aaaaaaaaaaa", 100, "Some Song", 3⟩
    ⟨"aaaaaaaaaaa", "", 0, 0⟩ ⟨"aaaaaaaaaaa", "", 0, 0⟩ 40000 41000
    (by decide) (by decide) (by decide) (by decide)

/-- C6: on an existing record, ensure leaves the timestamp and the count of
the stored record unchanged, and a store write is issued exactly when the
resolved title differs from the stored title. -/
theorem C6_ensure_frame (ex : Video) (req : VideoRequest) (now : Nat)
    (hc : 1 ≤ ex.intCount) :
    (ensureVideoToReturn ex req).intTimestamp = ex.intTimestamp ∧
    (ensureVideoToReturn ex req).intCount = ex.intCount ∧
    (ensureStored (some ex) req now).intTimestamp = ex.intTimestamp ∧
    (ensureStored (some ex) req now).intCount = ex.intCount ∧
    (ensurePutIssued ex req = true ↔ preferredTitle ex req ≠ ex.strTitle) := by
  have hcnt : jsOrNat ex.intCount 1 = ex.intCount := jsOrNat_one_of_pos hc
  refine ⟨rfl, hcnt, ?_, ?_, ?_⟩
  · simp only [ensureStored]; split <;> rfl
  · simp only [ensureStored]; split
    · exact hcnt
    · rfl
  · simp [ensurePutIssued, bne_iff_ne]

/-- Witness for C6 at a concrete record and request. -/
theorem C6_ensure_frame_witness :
    (ensureVideoToReturn ⟨"aaaaaaaaaaa", 44, "Old Song", 6⟩
        ⟨"aaaaaaaaaaa", "New Song", 123, 9⟩).intTimestamp = 44 ∧
    (ensureVideoToReturn ⟨"aaaaaaaaaaa", 44, "Old Song", 6⟩
        ⟨"aaaaaaaaaaa", "New Song", 123, 9⟩).intCount = 6 ∧
    (ensureStored (some ⟨"aaaaaaaaaaa", 44, "Old Song", 6⟩)
        ⟨"aaaaaaaaaaa", "New Song", 123, 9⟩ 77).intTimestamp = 44 ∧
    (ensureStored (some ⟨"aaaaaaaaaaa", 44, "Old Song", 6⟩)
        ⟨"aaaaaaaaaaa", "New Song", 123, 9⟩ 77).intCount = 6 ∧
    (ensurePutIssued ⟨"aaaaaaaaaaa", 44, "Old Song", 6⟩
        ⟨"aaaaaaaaaaa", "New Song", 123, 9⟩ = true ↔
      preferredTitle ⟨"aaaaaaaaaaa", 44, "Old Song", 6⟩
        ⟨"aaaaaaaaaaa", "New Song", 123, 9⟩ ≠ "Old Song") :=
  C6_ensure_frame ⟨"aaaaaaaaaaa", 44, "Old Song", 6⟩
    ⟨"aaaaaaaaaaa", "New Song", 123, 9⟩ 77 (by decide)

/-- C4 counterexample: ensure is not idempotent as claimed. With no prior
record and the non-meaningful observed title Loading..., the first call
creates the record with an empty title while the second call with the
identical arguments overwrites that empty title with Loading..., so the
stored record changes after the first call. -/
theorem C4_counterexample :
    ensureStored
        (some (ensureStored none ⟨"aaaaaaaaaaa", "Loading...", 1000, 2⟩ 500))
        ⟨"aaaaaaaaaaa", "Loading...", 1000, 2⟩ 600
      ≠ ensureStored none ⟨"aaaaaaaaaaa", "Loading...", 1000, 2⟩ 500 := by
  decide

/-- C4 amended: ensure is idempotent for identical arguments whenever the
observed title is meaningful or absent; only an absent record combined
with a truthy non-meaningful observed title breaks idempotence, because
creation gates the title to empty while the update branch then prefers
the truthy title over the empty one. -/
theorem C4_ensure_idempotent (s : Option Video) (req : VideoRequest)
    (n0 n1 : Nat)
    (h : req.strTitle = "" ∨ isValidVideoTitle req.strTitle = true) :
    ensureStored (some (ensureStored s req n0)) req n1 = ensureStored s req n0 := by
  rcases h with he | hv
  · have hput : ∀ w : Video, ensurePutIssued w req = false := by
      intro w
      simp [ensurePutIssued, preferredTitle, truthyS, he, jsOrString_empty]
    simp [ensureStored, hput]
  · have hne : req.strTitle ≠ "" := valid_title_ne_empty hv
    have hguard : (truthyS req.strTitle && isValidVideoTitle req.strTitle) = true := by
      simp [truthyS, hne, hv]
    have hpref : ∀ w : Video, preferredTitle w req = req.strTitle := by
      intro w; simp only [preferredTitle]; rw [if_pos hguard]
    have hstored : (ensureStored s req n0).strTitle = req.strTitle := by
      cases s with
      | none => simp only [ensureStored, newVideoFrom]; rw [if_pos hguard]
      | some ex =>
        simp only [ensureStored]
        split
        · simp [ensureVideoToReturn, hpref]
        · next hput =>
          have : preferredTitle ex req = ex.strTitle := by
            simpa [ensurePutIssued, bne_eq_false_iff_eq] using hput
          rw [← this, hpref]
    generalize ensureStored s req n0 = w at hstored ⊢
    simp only [ensureStored, ensurePutIssued, hpref, hstored, bne_self_eq_false,
      Bool.false_eq_true, if_false]

/-- Witness for C4 amended at a concrete meaningful title. -/
theorem C4_ensure_idempotent_witness :
    ensureStored
        (some (ensureStored none ⟨"aaaaaaaaaaa", "Good Title", 1000, 2⟩ 500))
        ⟨"aaaaaaaaaaa", "Good Title", 1000, 2⟩ 600
      = ensureStored none ⟨"aaaaaaaaaaa", "Good Title", 1000, 2⟩ 500 :=
  C4_ensure_idempotent none ⟨"aaaaaaaaaaa", "Good Title", 1000, 2⟩ 500 600
    (Or.inr (by decide))

/-- C2 counterexample: the history merge does not follow the meaningfulness
rule claimed. With the stored title Loading..., which is non-meaningful
but non-empty, and the new normalized title Good Title, the source keeps
Loading... while the claimed rule demands Good Title, because the source
tests mere truthiness of the existing title rather than the quality
predicate. -/
theorem C2_counterexample :
    isValidVideoTitle
        (Video.strTitle ⟨"abcdefghijk", 100, "Loading...", 3⟩) = false ∧
    (historyMergedVideo "abcdefghijk" ⟨"abcdefghijk", 100, "Loading...", 3⟩
        ⟨50, 5, "Good Title"⟩).strTitle ≠ "Good Title" ∧
    (historyMergedVideo "abcdefghijk" ⟨"abcdefghijk", 100, "Loading...", 3⟩
        ⟨50, 5, "Good Title"⟩).strTitle ≠
      specHistoryMergeTitle "Loading..." "Good Title" := by
  refine ⟨by decide, by decide, by decide⟩

/-- C2 amended: for a filtered history entry matched against an existing
record with skipExisting false, the merged record has the maximum of the
two timestamps, the existing title whenever it is non-empty (rather than
whenever it is meaningful) and otherwise the new normalized title, and
the maximum of the two counts; timestamp and count never decrease, and an
absent record is created from the entry values. -/
theorem C2_history_merge (id : String) (ex : Video) (e : HistoryEntry)
    (hc : 1 ≤ ex.intCount) (hv : 1 ≤ e.visitCount) :
    (historyMergedVideo id ex e).intTimestamp
        = max ex.intTimestamp e.lastVisitTime ∧
    (historyMergedVideo id ex e).strTitle
        = (if ex.strTitle = "" then e.cleanTitle else ex.strTitle) ∧
    (historyMergedVideo id ex e).intCount = max ex.intCount e.visitCount ∧
    ex.intTimestamp ≤ (historyMergedVideo id ex e).intTimestamp ∧
    ex.intCount ≤ (historyMergedVideo id ex e).intCount ∧
    historyStep false id e (some ex) = historyMergedVideo id ex e ∧
    historyStep false id e none
        = { strIdent := id, intTimestamp := e.lastVisitTime,
            strTitle := e.cleanTitle, intCount := e.visitCount } := by
  refine ⟨?_, ?_, ?_, ?_, ?_, rfl, ?_⟩
  · simp [historyMergedVideo, jsOrNat_zero]
  · simp [historyMergedVideo, jsOrString]
  · simp [historyMergedVideo, jsOrNat_one_of_pos hc, jsOrNat_one_of_pos hv]
  · simp [historyMergedVideo, jsOrNat_zero]
  · simp only [historyMergedVideo]
    exact le_trans (le_jsOrNat_one ex.intCount) (le_max_left _ _)
  · simp [historyStep, historyNewVideo, jsOrNat_one_of_pos hv]

/-- Witness for C2 amended at the concrete records of the end-to-end scenario
with an empty stored title. -/
theorem C2_history_merge_witness :
    (historyMergedVideo "abcdefghijk" ⟨"abcdefghijk", 1000, "", 3⟩
        ⟨900, 5, "Good Title"⟩).intTimestamp = max 1000 900 ∧
    (historyMergedVideo "abcdefghijk" ⟨"abcdefghijk", 1000, "", 3⟩
        ⟨900, 5, "Good Title"⟩).strTitle
      = (if ("" : String) = "" then "Good Title" else "") ∧
    (historyMergedVideo "abcdefghijk" ⟨"abcdefghijk", 1000, "", 3⟩
        ⟨900, 5, "Good Title"⟩).intCount = max 3 5 :=
  ⟨(C2_history_merge "abcdefghijk" ⟨"abcdefghijk", 1000, "", 3⟩
      ⟨900, 5, "Good Title"⟩ (by decide) (by decide)).1,
   (C2_history_merge "abcdefghijk" ⟨"abcdefghijk", 1000, "", 3⟩
      ⟨900, 5, "Good Title"⟩ (by decide) (by decide)).2.1,
   (C2_history_merge "abcdefghijk" ⟨"abcdefghijk", 1000, "", 3⟩
      ⟨900, 5, "Good Title"⟩ (by decide) (by decide)).2.2.1⟩

/-- Per-step count monotonicity: every mark or history step on an existing
record yields a count at least as large. -/
lemma applyIdStep_count_mono (id : String) (st : IdStep) (v : Video) :
    v.intCount ≤ (applyIdStep id st (some v)).intCount := by
  cases st with
  | mark req now =>
    simp only [applyIdStep, markVideo]
    split
    · rw [jsOrNat_succ_one]; omega
    · exact le_jsOrNat_one v.intCount
  | hist sk e =>
    cases sk with
    | true => simp [applyIdStep, historyStep]
    | false =>
      simp only [applyIdStep, historyStep, historyMergedVideo]
      exact le_trans (le_jsOrNat_one v.intCount) (le_max_left _ _)

/-- C5: for every id and every sequence of mark and history-merge steps
applied to that id, a step never removes the record and never decreases
its viewCount, so across any whole sequence the count is non-decreasing. -/
theorem C5_count_monotonicity :
    (∀ (id : String) (st : IdStep) (v : Video),
      v.intCount ≤ (applyIdStep id st (some v)).intCount) ∧
    (∀ (id : String) (steps : List IdStep) (v : Video),
      ∃ w : Video, applyIdSteps id steps (some v) = some w ∧
        v.intCount ≤ w.intCount) := by
  refine ⟨applyIdStep_count_mono, ?_⟩
  intro id steps
  induction steps with
  | nil => intro v; exact ⟨v, rfl, le_refl _⟩
  | cons st rest ih =>
    intro v
    obtain ⟨w, hw, hle⟩ := ih (applyIdStep id st (some v))
    exact ⟨w, hw, le_trans (applyIdStep_count_mono id st v) hle⟩

/-- The continuation loop performs at most remaining fetches. -/
lemma contLoop_fetch_bound (pages : Nat → ContResult) :
    ∀ (rem i : Nat) (tk : Option String) (acc : List Video),
      (contLoop pages rem i tk acc).2 ≤ rem := by
  intro rem
  induction rem with
  | zero =>
    intro i tk acc
    cases tk <;> simp [contLoop]
  | succ r ih =>
    intro i tk acc
    cases tk with
    | none => simp [contLoop]
    | some t =>
      simp only [contLoop]
      cases hp : pages i with
      | fail => simp [hp]
      | noContents => simp [hp]
      | page vids tok =>
        have := ih (i + 1) tok (acc ++ vids)
        simp only [hp]
        omega

/-- Through a chain of m token-bearing pages followed by one tokenless page,
the continuation loop performs exactly m plus 1 fetches. -/
lemma contLoop_token_chain :
    ∀ (m : Nat) (pages : Nat → ContResult) (rem i : Nat) (tk : String)
      (acc : List Video),
      (∀ k, k < m → ∃ vs t, pages (i + k) = ContResult.page vs (some t)) →
      (∃ vs, pages (i + m) = ContResult.page vs none) →
      m < rem →
      (contLoop pages rem i (some tk) acc).2 = m + 1 := by
  intro m
  induction m with
  | zero =>
    intro pages rem i tk acc _ hlast hrem
    obtain ⟨vs, hvs⟩ := hlast
    obtain ⟨r, rfl⟩ : ∃ r, rem = r + 1 := ⟨rem - 1, by omega⟩
    simp only [contLoop]
    rw [show pages i = ContResult.page vs none from by simpa using hvs]
    simp [contLoop]
  | succ m ih =>
    intro pages rem i tk acc htok hlast hrem
    obtain ⟨vs, t, hvt⟩ := htok 0 (by omega)
    obtain ⟨r, rfl⟩ : ∃ r, rem = r + 1 := ⟨rem - 1, by omega⟩
    simp only [contLoop]
    rw [show pages i = ContResult.page vs (some t) from by simpa using hvt]
    have hrec := ih pages r (i + 1) t (acc ++ vs)
      (fun k hk => by
        have := htok (k + 1) (by omega)
        simpa [Nat.add_assoc, Nat.add_comm 1 k] using this)
      (by
        obtain ⟨ws, hws⟩ := hlast
        exact ⟨ws, by simpa [Nat.add_assoc, Nat.add_comm 1 m] using hws⟩)
      (by omega)
    simp only []
    omega

/-- C7 counterexample: with two pages, the initial history page yielding a
token and the single continuation page yielding none, the synchronize
pagination performs two fetches, not the three the claim demands for a
two-page sequence. -/
theorem C7_counterexample :
    synchronizeFetches (some ([], some "t")) (fun _ => ContResult.page [] none) = 2 ∧
    synchronizeFetches (some ([], some "t")) (fun _ => ContResult.page [] none)
      ≠ 2 + 1 := by
  refine ⟨by decide, by decide⟩

/-- C7 amended: for a sequence of N pages, here N equal to m plus 2 counting
the initial page, the m token-bearing continuation pages and the final
tokenless continuation page, the synchronize pagination performs exactly
N fetches, one per page; for every input the total number of fetches
never exceeds the cap of 10; an initial page without structured data
leads to a single fetch; and a failed continuation fetch stops the loop
at once, returning the candidates accumulated so far. -/
theorem C7_pagination (m : Nat) (pages : Nat → ContResult)
    (initVideos : List Video) (t0 : String)
    (htok : ∀ k, k < m → ∃ vs t, pages k = ContResult.page vs (some t))
    (hlast : ∃ vs, pages m = ContResult.page vs none)
    (hcap : m + 2 ≤ 10) :
    synchronizeFetches (some (initVideos, some t0)) pages = m + 2 ∧
    (∀ (dm : Option (List Video × Option String)) (ps : Nat → ContResult),
      synchronizeFetches dm ps ≤ 10) ∧
    synchronizeFetches (some (initVideos, none)) pages = 1 ∧
    (∀ (ps : Nat → ContResult) (rem i : Nat) (tk : String) (acc : List Video),
      ps i = ContResult.fail →
      contLoop ps (rem + 1) i (some tk) acc = (acc, 1)) := by
  refine ⟨?_, ?_, ?_, ?_⟩
  · have h := contLoop_token_chain m pages (maxPages - 1) 0 t0 initVideos
      (fun k hk => by simpa using htok k hk)
      (by simpa using hlast)
      (by simp [maxPages]; omega)
    simp only [synchronizeFetches, initState]
    omega
  · intro dm ps
    cases dm with
    | none => simp [synchronizeFetches, initState, contLoop]
    | some p =>
      have := contLoop_fetch_bound ps (maxPages - 1) 0 p.2 p.1
      simp only [synchronizeFetches, initState, maxPages] at this ⊢
      omega
  · simp [synchronizeFetches, initState, contLoop]
  · intro ps rem i tk acc hfail
    simp [contLoop, hfail]

/-- Witness for C7 at a concrete three-page run: the initial page with a
token, one continuation page with a token and one final page without. -/
theorem C7_pagination_witness :
    synchronizeFetches (some ([], some "t"))
        (fun k => if k == 0 then ContResult.page [] (some "u")
                  else ContResult.page [] none) = 1 + 2 :=
  (C7_pagination 1
      (fun k => if k == 0 then ContResult.page [] (some "u")
                else ContResult.page [] none)
      [] "t"
      (fun k hk => by
        have hk0 : k = 0 := by omega
        exact ⟨[], "u", by subst hk0; rfl⟩)
      ⟨[], by decide⟩
      (by decide)).1

/-- C8 counterexample: the structured parser does not deduplicate ids across
items. A page whose content list holds the same 11-character id once in
the view-model shape and once in the renderer shape, in two distinct
items, yields two candidates for that id. -/
theorem C8_counterexample :
    ((extractVideosFromContents 0 (fun s => s)
        [⟨some [⟨some ⟨some "aaaaaaaaaaa", some "Some Title", none⟩, none⟩,
                ⟨none, some ⟨some "aaaaaaaaaaa", [some "Another Title"]⟩⟩]⟩]).map
      Video.strIdent) = ["aaaaaaaaaaa", "aaaaaaaaaaa"] ∧
    ¬ ((extractVideosFromContents 0 (fun s => s)
        [⟨some [⟨some ⟨some "aaaaaaaaaaa", some "Some Title", none⟩, none⟩,
                ⟨none, some ⟨some "aaaaaaaaaaa", [some "Another Title"]⟩⟩]⟩]).map
      Video.strIdent).Nodup := by
  refine ⟨by decide, by decide⟩

/-- C8 amended: the structured parser produces at most one candidate per
item, and within a single item carrying the same id in both the
view-model and the renderer shapes the view-model candidate wins and is
the only candidate produced; deduplication across distinct items of a
page does not happen in the structured strategy. -/
theorem C8_item_dedup (now : Nat) (decode : String → String)
    (item : ContentItem) :
    (itemCandidates now decode item).length ≤ 1 ∧
    (∀ (l : LockupViewModel) (v : Video),
      item.lockupViewModel = some l →
      lockupCandidate now decode l = some v →
      itemCandidates now decode item = [v]) := by
  constructor
  · rcases hl : item.lockupViewModel with _ | l <;>
      rcases hr : item.videoRenderer with _ | r <;>
        simp only [itemCandidates, hl, hr]
    · simp
    · rcases hc : rendererCandidate now decode r with _ | v <;> simp [hc]
    · rcases hc : lockupCandidate now decode l with _ | v <;> simp [hc]
    · rcases hc : lockupCandidate now decode l with _ | v <;> simp only [hc]
      · rcases hd : rendererCandidate now decode r with _ | w <;> simp [hd]
      · simp
  · intro l v hl hv
    simp [itemCandidates, hl, hv]

/-- Witness for C8 at an item holding both shapes for the same id: exactly
the view-model candidate survives. -/
theorem C8_item_dedup_witness :
    itemCandidates 0 (fun s => s)
        ⟨some ⟨some "aaaaaaaaaaa", some "Some Title", none⟩,
         some ⟨some "aaaaaaaaaaa", [some "Another Title"]⟩⟩
      = [⟨"aaaaaaaaaaa", 0, "Some Title", 1⟩] :=
  (C8_item_dedup 0 (fun s => s)
      ⟨some ⟨some "aaaaaaaaaaa", some "Some Title", none⟩,
       some ⟨some "aaaaaaaaaaa", [some "Another Title"]⟩⟩).2
    ⟨some "aaaaaaaaaaa", some "Some Title", none⟩
    ⟨"aaaaaaaaaaa", 0, "Some Title", 1⟩ rfl (by decide)

/-- Every optimal chunk size is positive. -/
lemma getOptimalChunkSize_pos (n : Nat) : 1 ≤ getOptimalChunkSize n := by
  unfold getOptimalChunkSize CHUNK_SIZE_LARGE CHUNK_SIZE_MEDIUM CHUNK_SIZE_SMALL
  split_ifs <;> omega

/-- The rounded percentage is monotone in the processed count. -/
lemma roundPct_mono {a b t : Nat} (h : a ≤ b) : roundPct a t ≤ roundPct b t :=
  Nat.div_le_div_right (by omega)

/-- Rounding the full fraction gives one hundred. -/
lemma roundPct_self {t : Nat} (h : 1 ≤ t) : roundPct t t = 100 := by
  unfold roundPct
  have h1 : 200 * t + t = 2 * t * 100 + t := by ring
  rw [h1, Nat.mul_add_div (by omega), Nat.div_eq_of_lt (by omega)]

/-- The ceiling chunk count times the chunk size covers the whole dataset. -/
lemma le_chunkCount_mul (total c : Nat) (hc : 1 ≤ c) (ht : 1 ≤ total) :
    total ≤ chunkCount total c * c := by
  unfold chunkCount
  have h1 := Nat.div_add_mod (total + c - 1) c
  have h2 : (total + c - 1) % c < c := Nat.mod_lt _ (by omega)
  rw [Nat.mul_comm]
  generalize c * ((total + c - 1) / c) = p at h1 ⊢
  omega

/-- At least one chunk is processed on a non-empty dataset. -/
lemma one_le_chunkCount (total c : Nat) (hc : 1 ≤ c) (ht : 1 ≤ total) :
    1 ≤ chunkCount total c := by
  unfold chunkCount
  rw [Nat.one_le_div_iff (by omega)]
  omega

/-- The unfolded form of the chunk report list. -/
lemma chunkReports_eq (total : Nat) :
    chunkReports total =
      (List.range (chunkCount total (getOptimalChunkSize total))).map
        (fun k => roundPct (min ((k + 1) * getOptimalChunkSize total) total) total) :=
  rfl

/-- C9: the chunk size is selected by the two fixed thresholds with the
smallest size for the largest datasets, in particular 60000 records get
the large-dataset chunk size; a dataset at or below its chunk size is a
single batch; and the reported percentages are monotonically increasing
and end at one hundred. -/
theorem C9_chunked_import :
    getOptimalChunkSize 60000 = CHUNK_SIZE_LARGE ∧
    (∀ n, LARGE_DATASET_THRESHOLD < n →
      getOptimalChunkSize n = CHUNK_SIZE_LARGE) ∧
    (∀ n, MEDIUM_DATASET_THRESHOLD < n → n ≤ LARGE_DATASET_THRESHOLD →
      getOptimalChunkSize n = CHUNK_SIZE_MEDIUM) ∧
    (∀ n, n ≤ MEDIUM_DATASET_THRESHOLD →
      getOptimalChunkSize n = CHUNK_SIZE_SMALL) ∧
    CHUNK_SIZE_LARGE < CHUNK_SIZE_MEDIUM ∧
    CHUNK_SIZE_MEDIUM < CHUNK_SIZE_SMALL ∧
    (∀ total, 1 ≤ total → total ≤ getOptimalChunkSize total →
      chunkCount total (getOptimalChunkSize total) = 1) ∧
    (∀ total, (chunkReports total).Pairwise (· ≤ ·)) ∧
    (∀ total, 1 ≤ total → (chunkReports total).getLast? = some 100) := by
  refine ⟨by decide, ?_, ?_, ?_, by decide, by decide, ?_, ?_, ?_⟩
  · intro n hn
    unfold getOptimalChunkSize
    rw [if_pos hn]
  · intro n hn1 hn2
    unfold getOptimalChunkSize
    rw [if_neg (by omega), if_pos hn1]
  · intro n hn
    unfold getOptimalChunkSize LARGE_DATASET_THRESHOLD MEDIUM_DATASET_THRESHOLD at *
    rw [if_neg (by omega), if_neg (by omega)]
  · intro total ht hle
    have hc := getOptimalChunkSize_pos total
    unfold chunkCount
    exact Nat.div_eq_of_lt_le (by omega) (by omega)
  · intro total
    rw [chunkReports_eq]
    refine List.Pairwise.map _ ?_ (List.pairwise_lt_range _)
    intro a b hab
    exact roundPct_mono (min_le_min (Nat.mul_le_mul_right _ (by omega)) (le_refl total))
  · intro total ht
    have hc := getOptimalChunkSize_pos total
    have hn := one_le_chunkCount total (getOptimalChunkSize total) hc ht
    have hcov := le_chunkCount_mul total (getOptimalChunkSize total) hc ht
    rw [chunkReports_eq, List.getLast?_eq_getElem?]
    have hlen : ((List.range (chunkCount total (getOptimalChunkSize total))).map
        (fun k => roundPct (min ((k + 1) * getOptimalChunkSize total) total) total)).length
        = chunkCount total (getOptimalChunkSize total) := by
      simp
    rw [hlen]
    set n := chunkCount total (getOptimalChunkSize total) with hndef
    rw [List.getElem?_map, List.getElem?_range (by omega)]
    have hsucc : n - 1 + 1 = n := by omega
    simp only [Option.map_some']
    rw [hsucc, min_eq_right hcov, roundPct_self ht]

/-- Witness for C9 at concrete dataset sizes. -/
theorem C9_chunked_import_witness :
    getOptimalChunkSize 60000 = CHUNK_SIZE_LARGE ∧
    getOptimalChunkSize 20000 = CHUNK_SIZE_MEDIUM ∧
    getOptimalChunkSize 400 = CHUNK_SIZE_SMALL ∧
    chunkCount 400 (getOptimalChunkSize 400) = 1 ∧
    (chunkReports 60000).Pairwise (· ≤ ·) ∧
    (chunkReports 60000).getLast? = some 100 :=
  ⟨(C9_chunked_import).1,
   (C9_chunked_import).2.2.1 20000 (by decide) (by decide),
   (C9_chunked_import).2.2.2.1 400 (by decide),
   (C9_chunked_import).2.2.2.2.2.2.1 400 (by decide) (by decide),
   (C9_chunked_import).2.2.2.2.2.2.2.1 60000,
   (C9_chunked_import).2.2.2.2.2.2.2.2 60000 (by decide)⟩

/-- Ids already present in the store are never overwritten by the scrape
storage loop. -/
lemma storeLoop_preserves :
    ∀ (videos : List Video) (s : Store) (id : String) (v : Video),
      s id = some v → (storeLoop videos s).1 id = some v := by
  intro videos
  induction videos with
  | nil => intro s id v h; exact h
  | cons w rest ih =>
    intro s id v h
    simp only [storeLoop]
    cases hw : s w.strIdent with
    | some u => exact ih s id v h
    | none =>
      apply ih
      unfold putVideo
      by_cases hid : id = w.strIdent
      · rw [hid] at h; rw [h] at hw; exact absurd hw (by simp)
      · rw [if_neg hid]; exact h

/-- An id absent from the store ends up mapped to the first candidate
carrying it, or stays absent when no candidate does. -/
lemma storeLoop_creates :
    ∀ (videos : List Video) (s : Store) (id : String),
      s id = none →
      (storeLoop videos s).1 id = videos.find? (fun v => v.strIdent == id) := by
  intro videos
  induction videos with
  | nil => intro s id h; exact h
  | cons w rest ih =>
    intro s id h
    simp only [storeLoop]
    by_cases hid : w.strIdent = id
    · have hw : s w.strIdent = none := by rw [hid]; exact h
      rw [hw]
      have hput : putVideo s w id = some w := by
        unfold putVideo; rw [if_pos hid.symm]
      rw [storeLoop_preserves rest (putVideo s w) id w hput,
        List.find?_cons_of_pos _ (by simp [hid])]
    · rw [List.find?_cons_of_neg _ (by simp [hid])]
      cases hw : s w.strIdent with
      | some u => exact ih s id h
      | none =>
        apply ih
        unfold putVideo
        rw [if_neg (fun hh => hid hh.symm)]
        exact h

/-- Every candidate is counted exactly once, as processed or as skipped. -/
lemma storeLoop_counts :
    ∀ (videos : List Video) (s : Store),
      (storeLoop videos s).2.1 + (storeLoop videos s).2.2 = videos.length := by
  intro videos
  induction videos with
  | nil => intro s; rfl
  | cons w rest ih =>
    intro s
    simp only [storeLoop]
    cases hw : s w.strIdent with
    | some u => have := ih s; simp only [List.length_cons]; omega
    | none => have := ih (putVideo s w); simp only [List.length_cons]; omega

/-- C10: the scrape synchronizations never mutate an existing record: every
stored id keeps its record through the storage loop, an absent id is
created from the first candidate carrying it, every candidate is counted
either processed or skipped, and the reported updatedCount is zero. -/
theorem C10_scrape_never_updates (videos : List Video) (s : Store) :
    (∀ (id : String) (v : Video), s id = some v →
      (storeLoop videos s).1 id = some v) ∧
    (∀ id : String, s id = none →
      (storeLoop videos s).1 id = videos.find? (fun v => v.strIdent == id)) ∧
    (storeLoop videos s).2.1 + (storeLoop videos s).2.2 = videos.length ∧
    (syncStoreResult videos s).updatedCount = 0 :=
  ⟨fun id v h => storeLoop_preserves videos s id v h,
   fun id h => storeLoop_creates videos s id h,
   storeLoop_counts videos s, rfl⟩

/-- Witness for C10: one candidate already stored and one new candidate. -/
theorem C10_scrape_never_updates_witness :
    (storeLoop [⟨"aaaaaaaaaaa", 9, "New Title A", 1⟩, ⟨"bbbbbbbbbbb", 9, "New Title B", 1⟩]
        (fun id => if id = "aaaaaaaaaaa" then some ⟨"aaaaaaaaaaa", 3, "Old Title", 7⟩ else none)).1
      "aaaaaaaaaaa" = some ⟨"aaaaaaaaaaa", 3, "Old Title", 7⟩ ∧
    (storeLoop [⟨"aaaaaaaaaaa", 9, "New Title A", 1⟩, ⟨"bbbbbbbbbbb", 9, "New Title B", 1⟩]
        (fun id => if id = "aaaaaaaaaaa" then some ⟨"aaaaaaaaaaa", 3, "Old Title", 7⟩ else none)).1
      "bbbbbbbbbbb"
      = [(⟨"aaaaaaaaaaa", 9, "New Title A", 1⟩ : Video),
         ⟨"bbbbbbbbbbb", 9, "New Title B", 1⟩].find?
          (fun v => v.strIdent == "bbbbbbbbbbb") :=
  ⟨(C10_scrape_never_updates
      [⟨"aaaaaaaaaaa", 9, "New Title A", 1⟩, ⟨"bbbbbbbbbbb", 9, "New Title B", 1⟩]
      (fun id => if id = "aaaaaaaaaaa" then some ⟨"aaaaaaaaaaa", 3, "Old Title", 7⟩ else none)).1
      "aaaaaaaaaaa" ⟨"aaaaaaaaaaa", 3, "Old Title", 7⟩ (by decide),
   (C10_scrape_never_updates
      [⟨"aaaaaaaaaaa", 9, "New Title A", 1⟩, ⟨"bbbbbbbbbbb", 9, "New Title B", 1⟩]
      (fun id => if id = "aaaaaaaaaaa" then some ⟨"aaaaaaaaaaa", 3, "Old Title", 7⟩ else none)).2.1
      "bbbbbbbbbbb" (by decide)⟩

end YTWM
